import Mathlib

/-!
Shallow embedding of the gift-allocation core of the trade-offer
application (`algorithms.py`, `utils.py`, and the pure fragments of
`app.py`), together with theorems settling the specification claims.

Python floats and arbitrary-precision ints are modelled by `ℚ` and `ℤ`.
Python's `round(x, 2)` is modelled by `round2`, and Python's `int(x)`
(truncation toward zero) by `ratTrunc`.
-/

/-- `models.CustomerType`. -/
inductive CustomerType
  | RETAILER
  | TOBACCO_SHOP
deriving DecidableEq, Repr

/-- Offer tier names used by `app.adjust_gifts_for_tier_roi` and the
tier classification in `app.main`. -/
inductive Tier
  | Silver
  | Gold
  | Diamond
  | Platinum
deriving DecidableEq, Repr

/-- The order-summary dictionary consumed by the allocation core:
pack quantities for the three sizes and the order's total value
(`utils.generate_order_summary` produces `total_value` as the
quantity-weighted sum of the unit prices). -/
structure OrderData where
  q50 : ℤ
  q250 : ℤ
  q1kg : ℤ
  total_value : ℚ
deriving DecidableEq, Repr

/-- A gift-quantity dictionary `{"Pack FOC": _, "Hookah": _}`. -/
structure GiftQty where
  packFOC : ℤ
  hookah : ℤ
deriving DecidableEq, Repr

/-- The data-model invariant on order summaries: non-negative
quantities and non-negative total value. -/
def OrderNonNeg (o : OrderData) : Prop :=
  0 ≤ o.q50 ∧ 0 ≤ o.q250 ∧ 0 ≤ o.q1kg ∧ 0 ≤ o.total_value

instance (o : OrderData) : Decidable (OrderNonNeg o) := by
  unfold OrderNonNeg; infer_instance

/-- Python `round(x, 2)`: round to 2 decimal places. -/
def round2 (q : ℚ) : ℚ := (round (q * 100) : ℤ) / 100

/-- Python `int(x)`: truncation toward zero. -/
def ratTrunc (q : ℚ) : ℤ := if q < 0 then ⌈q⌉ else ⌊q⌋

/-- `utils.calculate_gift_value`. -/
def calculate_gift_value (gift_type : String) (quantity : ℚ) : ℚ :=
  if gift_type = "Pack FOC" then quantity * 38
  else if gift_type = "Hookah" then quantity * 400
  else 0

/-- `utils.get_max_gift_quantities`: Pack FOC max is `int(budget / 38)`;
Hookah max is `int(budget / 400)` for tobacco shops and 0 otherwise.
The `order_value` argument is accepted but unused, as in the source. -/
def get_max_gift_quantities (budget : ℚ) (customer_type : CustomerType)
    (order_value : ℚ) : GiftQty :=
  { packFOC := ratTrunc (budget / 38)
    hookah := if customer_type = CustomerType.TOBACCO_SHOP
              then ratTrunc (budget / 400) else 0 }

/-- Total order weight in grams, as summed in `algorithms.recommend_gift`. -/
def total_order_weight_g (o : OrderData) : ℤ :=
  o.q50 * 50 + o.q250 * 250 + o.q1kg * 1000

/-- Total order weight in kilograms. -/
def total_order_weight_kg (o : OrderData) : ℚ :=
  (total_order_weight_g o : ℚ) / 1000

/-- The hookah-allocation section of `algorithms.recommend_gift`
(lines 36-45): tobacco shops get `min 2 max` hookahs when the order
is over 100 kg and the budget at least 800, one hookah when the order
is over 50 kg and the budget at least 400, and none otherwise. -/
def hookah_alloc (o : OrderData) (customer_type : CustomerType)
    (budget : ℚ) : ℤ :=
  if customer_type = CustomerType.TOBACCO_SHOP then
    if 100 < total_order_weight_kg o ∧ 800 ≤ budget then
      min 2 (get_max_gift_quantities budget customer_type o.total_value).hookah
    else if 50 < total_order_weight_kg o ∧ 400 ≤ budget then 1
    else 0
  else 0

/-- `algorithms.recommend_gift`: hookahs first (for tobacco shops),
then the remaining budget converted to Pack FOC, capped by the
maximum quantities. `remaining_budget = budget - hookah * 400` in
every branch of the source. -/
def recommend_gift (o : OrderData) (customer_type : CustomerType)
    (budget : ℚ) : GiftQty :=
  { packFOC :=
      if 0 < budget - (hookah_alloc o customer_type budget : ℚ) * 400 then
        min ⌊(budget - (hookah_alloc o customer_type budget : ℚ) * 400) / 38⌋
          (get_max_gift_quantities budget customer_type o.total_value).packFOC
      else 0
    hookah := hookah_alloc o customer_type budget }

/-- `algorithms.calculate_roi`: total gift value over total order value
as a percentage, rounded to 2 decimals; 0 when the total value is not
positive. The `budget` argument is accepted but unused, as in the source. -/
def calculate_roi (o : OrderData) (gifts : GiftQty) (budget : ℚ) : ℚ :=
  if 0 < o.total_value then
    round2 ((calculate_gift_value "Pack FOC" (gifts.packFOC : ℚ) +
             calculate_gift_value "Hookah" (gifts.hookah : ℚ)) /
            o.total_value * 100)
  else 0

/-- `algorithms.calculate_budget_from_roi`. -/
def calculate_budget_from_roi (o : OrderData) (target_roi_percentage : ℚ) : ℚ :=
  round2 (o.total_value * (target_roi_percentage / 100))

/-- The `while` refinement loop of `algorithms.optimize_budget`
(lines 96-118), with explicit fuel.  The boolean is `true` when the
loop exited by its own condition or a `break`, and `false` when the
fuel ran out with the loop still running. -/
def optimize_loop (o : OrderData) (customer_type : CustomerType)
    (target budget : ℚ) : Nat → GiftQty → GiftQty × Bool
  | 0, g => (g, false)
  | Nat.succ n, g =>
    if (0.1 : ℚ) < |calculate_roi o g budget - target| then
      if target < calculate_roi o g budget then
        if 0 < g.packFOC then
          optimize_loop o customer_type target budget n
            ⟨g.packFOC - 1, g.hookah⟩
        else if 0 < g.hookah then
          optimize_loop o customer_type target budget n
            ⟨g.packFOC, g.hookah - 1⟩
        else (g, true)
      else
        if g.packFOC <
            (get_max_gift_quantities budget customer_type o.total_value).packFOC then
          optimize_loop o customer_type target budget n
            ⟨g.packFOC + 1, g.hookah⟩
        else (g, true)
    else (g, true)

/-- `algorithms.optimize_budget` with explicit fuel for its `while`
loop: derive the budget from the target ROI, recommend gifts, then
run the refinement loop. -/
def optimize_budget (o : OrderData) (customer_type : CustomerType)
    (target_roi_percentage : ℚ) (fuel : Nat) : GiftQty × Bool :=
  optimize_loop o customer_type target_roi_percentage
    (calculate_budget_from_roi o target_roi_percentage) fuel
    (recommend_gift o customer_type
      (calculate_budget_from_roi o target_roi_percentage))

/-- The tier ceiling-ROI table of `app.adjust_gifts_for_tier_roi`. -/
def tier_roi : Tier → ℚ
  | Tier.Silver => 13.0
  | Tier.Gold => 14.5
  | Tier.Diamond => 16.0
  | Tier.Platinum => 18.0

/-- The reduction `while` loop of `app.adjust_gifts_for_tier_roi`
(lines 176-185): decrement Pack FOC, then Hookah, until the realized
ROI is at most the target or both quantities are exhausted. -/
def adjust_loop (o : OrderData) (target budget : ℚ) (pf hk : ℤ) : ℤ × ℤ :=
  if target < calculate_roi o ⟨pf, hk⟩ budget then
    if 0 < pf then adjust_loop o target budget (max 0 (pf - 1)) hk
    else if 0 < hk then adjust_loop o target budget pf (max 0 (hk - 1))
    else (pf, hk)
  else (pf, hk)
termination_by pf.toNat + hk.toNat
decreasing_by
  · omega
  · omega

/-- `app.adjust_gifts_for_tier_roi` on a genuine tier: if the current
ROI is within the tier ceiling, return the gifts unchanged; otherwise
run the reduction loop. -/
def adjust_gifts_for_tier_roi (o : OrderData) (eligible_tier : Tier)
    (custom_gifts : GiftQty) (budget : ℚ) : GiftQty :=
  if calculate_roi o custom_gifts budget ≤ tier_roi eligible_tier then
    custom_gifts
  else
    { packFOC := (adjust_loop o (tier_roi eligible_tier) budget
        custom_gifts.packFOC custom_gifts.hookah).1
      hookah := (adjust_loop o (tier_roi eligible_tier) budget
        custom_gifts.packFOC custom_gifts.hookah).2 }

/-- Total grams as computed in `app.main` before tier classification. -/
def app_total_grams (q50 q250 q1kg : ℤ) : ℤ :=
  q50 * 50 + q250 * 250 + q1kg * 1000

/-- The eligibility flag of `app.main`: eligible exactly when the total
weight is at least 6000 g. -/
def classify_eligible (q50 q250 q1kg : ℤ) : Bool :=
  if app_total_grams q50 q250 q1kg < 6000 then false else true

/-- The tier classification of `app.main` (lines 339-352): Silver by
default; Platinum, Diamond or Gold by weight thresholds, each also
requiring at least one 1 kg pack. -/
def classify_tier (q50 q250 q1kg : ℤ) : Tier :=
  if app_total_grams q50 q250 q1kg < 6000 then Tier.Silver
  else if 246050 ≤ app_total_grams q50 q250 q1kg ∧ 0 < q1kg then Tier.Platinum
  else if 126050 ≤ app_total_grams q50 q250 q1kg ∧ 0 < q1kg then Tier.Diamond
  else if 66050 ≤ app_total_grams q50 q250 q1kg ∧ 0 < q1kg then Tier.Gold
  else Tier.Silver

/-! ### Helper lemmas -/

theorem ratTrunc_of_nonneg {q : ℚ} (h : 0 ≤ q) : ratTrunc q = ⌊q⌋ := by
  rw [ratTrunc, if_neg (not_lt.mpr h)]

theorem ratTrunc_of_neg {q : ℚ} (h : q < 0) : ratTrunc q = ⌈q⌉ := by
  rw [ratTrunc, if_pos h]

theorem calculate_gift_value_packFOC (q : ℚ) :
    calculate_gift_value "Pack FOC" q = q * 38 := by
  rw [calculate_gift_value, if_pos rfl]

theorem calculate_gift_value_hookah (q : ℚ) :
    calculate_gift_value "Hookah" q = q * 400 := by
  rw [calculate_gift_value, if_neg (by simp), if_pos rfl]

theorem floor_div_nonneg {b c : ℚ} (hb : 0 ≤ b) (hc : 0 ≤ c) : 0 ≤ ⌊b / c⌋ :=
  Int.floor_nonneg.mpr (div_nonneg hb hc)

theorem le_floor_div {k : ℤ} {b c : ℚ} (hc : 0 < c) (h : (k : ℚ) * c ≤ b) :
    k ≤ ⌊b / c⌋ :=
  Int.le_floor.mpr ((le_div_iff₀ hc).mpr h)

/-! ### Claims about `calculate_roi` -/

/-- C9: `calculate_roi` ignores its `budget` argument: any two budgets
give the same result for the same order and gifts. -/
theorem C9_calculate_roi_budget_independent (o : OrderData) (g : GiftQty)
    (b1 b2 : ℚ) : calculate_roi o g b1 = calculate_roi o g b2 := rfl

/-- C8: for an order respecting the non-negative total-value invariant,
`calculate_roi` returns 0 when the total value is 0 (no division error),
and otherwise the gift value over the total value as a percentage,
rounded to two decimals. -/
theorem C8_calculate_roi_spec (o : OrderData) (g : GiftQty) (b : ℚ)
    (h : 0 ≤ o.total_value) :
    (o.total_value = 0 → calculate_roi o g b = 0) ∧
    (o.total_value ≠ 0 →
      calculate_roi o g b =
        round2 (((g.packFOC : ℚ) * 38 + (g.hookah : ℚ) * 400) /
          o.total_value * 100)) := by
  constructor
  · intro h0
    rw [calculate_roi, if_neg (by rw [h0]; exact lt_irrefl 0)]
  · intro h0
    have hpos : 0 < o.total_value := lt_of_le_of_ne h (Ne.symm h0)
    rw [calculate_roi, if_pos hpos, calculate_gift_value_packFOC,
      calculate_gift_value_hookah]

/-- Witness for C8 at a concrete order and allocation. -/
theorem C8_witness : calculate_roi ⟨0, 0, 0, 2⟩ ⟨1, 0⟩ 5 = 1900 := by
  have h := (C8_calculate_roi_spec ⟨0, 0, 0, 2⟩ ⟨1, 0⟩ 5 (by norm_num)).2
    (by norm_num)
  rw [h, round2, round_eq]
  norm_num

/-! ### Claims about `get_max_gift_quantities` -/

/-- C3 counterexample: at budget −50 the Pack FOC maximum computed by
the code is `int(-50/38) = -1` (truncation toward zero), not
`floor(-50/38) = -2` as the claim states for negative budgets. -/
theorem C3_counterexample :
    ¬ (get_max_gift_quantities (-50) CustomerType.RETAILER 0).packFOC =
        ⌊(-50 : ℚ) / 38⌋ := by
  have h1 : (get_max_gift_quantities (-50) CustomerType.RETAILER 0).packFOC = -1 := by
    rw [get_max_gift_quantities]
    show ratTrunc ((-50 : ℚ) / 38) = -1
    rw [ratTrunc_of_neg (by norm_num), Int.ceil_eq_iff] <;> norm_num
  have h2 : ⌊(-50 : ℚ) / 38⌋ = -2 := by norm_num
  rw [h1, h2]
  decide

/-- C3 amended: `get_max_gift_quantities` returns the budget divided by
the unit value truncated toward zero — this is the floor for every
budget ≥ 0 (and the ceiling for negative budgets); the Hookah maximum
uses 400 for tobacco shops and is 0 otherwise. -/
theorem C3_amended_max_quantities (b : ℚ) (ct : CustomerType) (v : ℚ) :
    (0 ≤ b →
      (get_max_gift_quantities b ct v).packFOC = ⌊b / 38⌋ ∧
      (get_max_gift_quantities b ct v).hookah =
        (if ct = CustomerType.TOBACCO_SHOP then ⌊b / 400⌋ else 0)) ∧
    (b < 0 →
      (get_max_gift_quantities b ct v).packFOC = ⌈b / 38⌉ ∧
      (get_max_gift_quantities b ct v).hookah =
        (if ct = CustomerType.TOBACCO_SHOP then ⌈b / 400⌉ else 0)) := by
  rw [get_max_gift_quantities]
  constructor
  · intro hb
    refine ⟨ratTrunc_of_nonneg (div_nonneg hb (by norm_num)), ?_⟩
    cases ct with
    | RETAILER => rfl
    | TOBACCO_SHOP =>
      rw [if_pos rfl, if_pos rfl]
      exact ratTrunc_of_nonneg (div_nonneg hb (by norm_num))
  · intro hb
    refine ⟨ratTrunc_of_neg (div_neg_of_neg_of_pos hb (by norm_num)), ?_⟩
    cases ct with
    | RETAILER => rfl
    | TOBACCO_SHOP =>
      rw [if_pos rfl, if_pos rfl]
      exact ratTrunc_of_neg (div_neg_of_neg_of_pos hb (by norm_num))

/-- Witness for the amended C3 at budget 38 for a tobacco shop. -/
theorem C3_witness :
    (get_max_gift_quantities 38 CustomerType.TOBACCO_SHOP 0).packFOC =
      ⌊(38 : ℚ) / 38⌋ :=
  ((C3_amended_max_quantities 38 CustomerType.TOBACCO_SHOP 0).1 (by norm_num)).1

/-! ### Claims about `recommend_gift` -/

/-- C4: for a non-positive budget, `recommend_gift` returns the
all-zero allocation (and, being a total function, raises nothing). -/
theorem C4_recommend_gift_nonpositive_budget (o : OrderData)
    (ct : CustomerType) (b : ℚ) (ho : OrderNonNeg o) (hb : b ≤ 0) :
    recommend_gift o ct b = ⟨0, 0⟩ := by
  have hhk : hookah_alloc o ct b = 0 := by
    rw [hookah_alloc]
    split_ifs with h1 h2 h3
    · exact absurd h2.2 (by linarith)
    · exact absurd h3.2 (by linarith)
    · rfl
    · rfl
  rw [recommend_gift, hhk]
  rw [if_neg (by push_cast; linarith)]

/-- Witness for C4 at a concrete order, category and negative budget. -/
theorem C4_witness :
    recommend_gift ⟨1, 2, 3, 5⟩ CustomerType.TOBACCO_SHOP (-7) = ⟨0, 0⟩ :=
  C4_recommend_gift_nonpositive_budget ⟨1, 2, 3, 5⟩ CustomerType.TOBACCO_SHOP
    (-7) ⟨by norm_num, by norm_num, by norm_num, by norm_num⟩ (by norm_num)

/-! ### Claim about the tier classification -/

/-- C6: an order is eligible exactly when its weight is at least
6000 g, and the tier of an eligible order is Platinum, Diamond or Gold
by the weight thresholds 246050/126050/66050 g together with having at
least one 1 kg pack, and Silver otherwise; in particular a 6000 g order
with no 1 kg pack (120 packs of 50 g) is eligible with tier Silver. -/
theorem C6_classification (q50 q250 q1 : ℤ) (h50 : 0 ≤ q50)
    (h250 : 0 ≤ q250) (h1k : 0 ≤ q1) :
    (classify_eligible q50 q250 q1 = true ↔
      6000 ≤ 50 * q50 + 250 * q250 + 1000 * q1) ∧
    (6000 ≤ 50 * q50 + 250 * q250 + 1000 * q1 →
      classify_tier q50 q250 q1 =
        if 246050 ≤ 50 * q50 + 250 * q250 + 1000 * q1 ∧ 1 ≤ q1 then
          Tier.Platinum
        else if 126050 ≤ 50 * q50 + 250 * q250 + 1000 * q1 ∧ 1 ≤ q1 then
          Tier.Diamond
        else if 66050 ≤ 50 * q50 + 250 * q250 + 1000 * q1 ∧ 1 ≤ q1 then
          Tier.Gold
        else Tier.Silver) ∧
    (classify_eligible 120 0 0 = true ∧ classify_tier 120 0 0 = Tier.Silver) := by
  have hw : app_total_grams q50 q250 q1 = 50 * q50 + 250 * q250 + 1000 * q1 := by
    rw [app_total_grams]; ring
  refine ⟨?_, ?_, by decide, by decide⟩
  · rw [classify_eligible, hw]
    split_ifs with h
    · simp only [Bool.false_eq_true, false_iff]; omega
    · simp only [true_iff]; omega
  · intro helig
    have e1 : (246050 ≤ app_total_grams q50 q250 q1 ∧ 0 < q1) ↔
        (246050 ≤ 50 * q50 + 250 * q250 + 1000 * q1 ∧ 1 ≤ q1) := by
      rw [hw]; constructor <;> exact fun h => ⟨h.1, by omega⟩
    have e2 : (126050 ≤ app_total_grams q50 q250 q1 ∧ 0 < q1) ↔
        (126050 ≤ 50 * q50 + 250 * q250 + 1000 * q1 ∧ 1 ≤ q1) := by
      rw [hw]; constructor <;> exact fun h => ⟨h.1, by omega⟩
    have e3 : (66050 ≤ app_total_grams q50 q250 q1 ∧ 0 < q1) ↔
        (66050 ≤ 50 * q50 + 250 * q250 + 1000 * q1 ∧ 1 ≤ q1) := by
      rw [hw]; constructor <;> exact fun h => ⟨h.1, by omega⟩
    rw [classify_tier, if_neg (by omega)]
    simp only [e1, e2, e3]

/-- Witness for C6 at a concrete all-1kg order. -/
theorem C6_witness : classify_tier 0 0 300 = Tier.Platinum := by
  have h := (C6_classification 0 0 300 (by norm_num) (by norm_num)
    (by norm_num)).2.1 (by norm_num)
  rw [h, if_pos ⟨by norm_num, by norm_num⟩]

/-! ### Bounds on `recommend_gift` -/

/-- Bundle of facts about the hookah-allocation section under a
non-negative budget: the quantity is between 0 and 2, costs at most the
budget, never exceeds the hookah maximum, and is 0 for retailers. -/
theorem hookah_alloc_spec (o : OrderData) (ct : CustomerType) (b : ℚ)
    (hb : 0 ≤ b) :
    0 ≤ hookah_alloc o ct b ∧ hookah_alloc o ct b ≤ 2 ∧
    400 * (hookah_alloc o ct b : ℚ) ≤ b ∧
    hookah_alloc o ct b ≤ (get_max_gift_quantities b ct o.total_value).hookah ∧
    (ct = CustomerType.RETAILER → hookah_alloc o ct b = 0) := by
  cases ct with
  | RETAILER =>
    have h0 : hookah_alloc o CustomerType.RETAILER b = 0 := by
      rw [hookah_alloc, if_neg (by simp)]
    rw [h0, get_max_gift_quantities]
    refine ⟨le_refl 0, by norm_num, by norm_num [hb], ?_, fun _ => rfl⟩
    rw [if_neg (by simp)]
  | TOBACCO_SHOP =>
    have hmax : (get_max_gift_quantities b CustomerType.TOBACCO_SHOP
        o.total_value).hookah = ⌊b / 400⌋ := by
      show (if CustomerType.TOBACCO_SHOP = CustomerType.TOBACCO_SHOP
        then ratTrunc (b / 400) else 0) = ⌊b / 400⌋
      rw [if_pos rfl]
      exact ratTrunc_of_nonneg (div_nonneg hb (by norm_num))
    rw [hookah_alloc, if_pos rfl, hmax]
    split_ifs with h1 h2
    · have h2le : (2 : ℤ) ≤ ⌊b / 400⌋ :=
        le_floor_div (by norm_num) (by push_cast; linarith [h1.2])
      have hval : min 2 ⌊b / 400⌋ = 2 := min_eq_left h2le
      rw [hval]
      refine ⟨by norm_num, le_refl 2, by push_cast; linarith [h1.2], h2le,
        by intro h; simp at h⟩
    · have h1le : (1 : ℤ) ≤ ⌊b / 400⌋ :=
        le_floor_div (by norm_num) (by push_cast; linarith [h2.2])
      refine ⟨by norm_num, by norm_num, by push_cast; linarith [h2.2], h1le,
        by intro h; simp at h⟩
    · refine ⟨le_refl 0, by norm_num, by norm_num [hb],
        floor_div_nonneg hb (by norm_num), by intro h; simp at h⟩

/-- C5: for non-negative budgets, `recommend_gift` returns non-negative
quantities, never exceeds either maximum of `get_max_gift_quantities`
(including in the over-50 kg branch that sets Hookah to exactly 1),
gives at most 2 hookahs, and gives retailers no hookah. -/
theorem C5_recommend_gift_bounds (o : OrderData) (ct : CustomerType) (b : ℚ)
    (ho : OrderNonNeg o) (hb : 0 ≤ b) :
    0 ≤ (recommend_gift o ct b).packFOC ∧
    0 ≤ (recommend_gift o ct b).hookah ∧
    (recommend_gift o ct b).packFOC ≤
      (get_max_gift_quantities b ct o.total_value).packFOC ∧
    (recommend_gift o ct b).hookah ≤
      (get_max_gift_quantities b ct o.total_value).hookah ∧
    (recommend_gift o ct b).hookah ≤ 2 ∧
    (ct = CustomerType.RETAILER → (recommend_gift o ct b).hookah = 0) := by
  obtain ⟨hk0, hk2, hkc, hkm, hkr⟩ := hookah_alloc_spec o ct b hb
  have hmaxpf : (get_max_gift_quantities b ct o.total_value).packFOC =
      ⌊b / 38⌋ := by
    rw [get_max_gift_quantities, ratTrunc_of_nonneg (div_nonneg hb (by norm_num))]
  have hmaxpf0 : 0 ≤ (get_max_gift_quantities b ct o.total_value).packFOC := by
    rw [hmaxpf]; exact floor_div_nonneg hb (by norm_num)
  have hhk : (recommend_gift o ct b).hookah = hookah_alloc o ct b := rfl
  refine ⟨?_, hhk ▸ hk0, ?_, hhk ▸ hkm, hhk ▸ hk2, fun h => hhk ▸ hkr h⟩
  · show 0 ≤ (recommend_gift o ct b).packFOC
    rw [recommend_gift]
    split_ifs with h
    · exact le_min (floor_div_nonneg (le_of_lt h) (by norm_num)) hmaxpf0
    · exact le_refl 0
  · show (recommend_gift o ct b).packFOC ≤ _
    rw [recommend_gift]
    split_ifs with h
    · exact min_le_right _ _
    · exact hmaxpf0

/-- Witness for C5 at a concrete heavy tobacco-shop order. -/
theorem C5_witness :
    (recommend_gift ⟨0, 0, 60, 10000⟩ CustomerType.TOBACCO_SHOP 1000).hookah ≤ 2 :=
  (C5_recommend_gift_bounds ⟨0, 0, 60, 10000⟩ CustomerType.TOBACCO_SHOP 1000
    ⟨by norm_num, by norm_num, by norm_num, by norm_num⟩ (by norm_num)).2.2.2.2.1

/-- C10: for non-negative budgets the value of the returned allocation,
38 per Pack FOC plus 400 per Hookah, never exceeds the budget. -/
theorem C10_recommend_gift_within_budget (o : OrderData) (ct : CustomerType)
    (b : ℚ) (ho : OrderNonNeg o) (hb : 0 ≤ b) :
    38 * ((recommend_gift o ct b).packFOC : ℚ) +
      400 * ((recommend_gift o ct b).hookah : ℚ) ≤ b := by
  obtain ⟨hk0, hk2, hkc, hkm, hkr⟩ := hookah_alloc_spec o ct b hb
  have hhk : (recommend_gift o ct b).hookah = hookah_alloc o ct b := rfl
  rw [hhk, recommend_gift]
  split_ifs with h
  · set rem : ℚ := b - (hookah_alloc o ct b : ℚ) * 400 with hrem
    have h1 : ((min ⌊rem / 38⌋
        ((get_max_gift_quantities b ct o.total_value).packFOC) : ℤ) : ℚ) ≤
        (⌊rem / 38⌋ : ℚ) := by
      exact_mod_cast min_le_left _ _
    have h2 : (⌊rem / 38⌋ : ℚ) ≤ rem / 38 := Int.floor_le _
    have hrem38 : (38 : ℚ) * (rem / 38) = rem := by ring
    linarith [h1, h2]
  · show 38 * ((0 : ℤ) : ℚ) + 400 * (hookah_alloc o ct b : ℚ) ≤ b
    push_cast
    linarith

/-- Witness for C10 at a concrete order and budget. -/
theorem C10_witness :
    38 * ((recommend_gift ⟨0, 0, 60, 10000⟩ CustomerType.TOBACCO_SHOP
        1000).packFOC : ℚ) +
      400 * ((recommend_gift ⟨0, 0, 60, 10000⟩ CustomerType.TOBACCO_SHOP
        1000).hookah : ℚ) ≤ 1000 :=
  C10_recommend_gift_within_budget ⟨0, 0, 60, 10000⟩ CustomerType.TOBACCO_SHOP
    1000 ⟨by norm_num, by norm_num, by norm_num, by norm_num⟩ (by norm_num)

/-! ### Claim about `adjust_gifts_for_tier_roi` -/

/-- Invariant of the reduction loop: starting from non-negative
quantities it only ever decrements, and it stops either with realized
ROI within the target or with both quantities at zero. Proved by
induction on a bound for the decreasing measure `pf.toNat + hk.toNat`. -/
theorem adjust_loop_spec (o : OrderData) (target budget : ℚ) :
    ∀ (n : Nat) (pf hk : ℤ), pf.toNat + hk.toNat ≤ n → 0 ≤ pf → 0 ≤ hk →
      (adjust_loop o target budget pf hk).1 ≤ pf ∧
      (adjust_loop o target budget pf hk).2 ≤ hk ∧
      (calculate_roi o ⟨(adjust_loop o target budget pf hk).1,
          (adjust_loop o target budget pf hk).2⟩ budget ≤ target ∨
        ((adjust_loop o target budget pf hk).1 = 0 ∧
         (adjust_loop o target budget pf hk).2 = 0)) := by
  intro n
  induction n with
  | zero =>
    intro pf hk hn hpf hhk
    have hpf0 : pf = 0 := by omega
    have hhk0 : hk = 0 := by omega
    subst hpf0
    subst hhk0
    rw [adjust_loop]
    split_ifs with h1 h2
    · exact absurd h2 (by omega)
    · exact ⟨le_refl 0, le_refl 0, Or.inr ⟨rfl, rfl⟩⟩
    · exact ⟨le_refl 0, le_refl 0, Or.inr ⟨rfl, rfl⟩⟩
  | succ n ih =>
    intro pf hk hn hpf hhk
    rw [adjust_loop]
    split_ifs with h1 h2 h3
    · obtain ⟨ha, hb, hc⟩ := ih (max 0 (pf - 1)) hk (by omega) (by omega) hhk
      exact ⟨le_trans ha (by omega), hb, hc⟩
    · obtain ⟨ha, hb, hc⟩ := ih pf (max 0 (hk - 1)) (by omega) hpf (by omega)
      exact ⟨ha, le_trans hb (by omega), hc⟩
    · exact ⟨le_refl pf, le_refl hk, Or.inr ⟨by omega, by omega⟩⟩
    · exact ⟨le_refl pf, le_refl hk, Or.inl (le_of_not_lt h1)⟩

/-- C7: for a positive-value order and a non-negative hand-edited
allocation, `adjust_gifts_for_tier_roi` uses the ceiling table
13/14.5/16/18, returns the allocation unchanged when its realized ROI
is already within the tier ceiling, never increases either quantity,
and ends either with realized ROI within the ceiling or with both
quantities at zero. -/
theorem C7_adjust_gifts_for_tier_roi_spec (o : OrderData) (tier : Tier)
    (g : GiftQty) (b : ℚ) (htv : 0 < o.total_value) (hpf : 0 ≤ g.packFOC)
    (hhk : 0 ≤ g.hookah) :
    (tier_roi Tier.Silver = 13 ∧ tier_roi Tier.Gold = 14.5 ∧
      tier_roi Tier.Diamond = 16 ∧ tier_roi Tier.Platinum = 18) ∧
    (calculate_roi o g b ≤ tier_roi tier →
      adjust_gifts_for_tier_roi o tier g b = g) ∧
    ((adjust_gifts_for_tier_roi o tier g b).packFOC ≤ g.packFOC ∧
     (adjust_gifts_for_tier_roi o tier g b).hookah ≤ g.hookah) ∧
    (calculate_roi o (adjust_gifts_for_tier_roi o tier g b) b ≤ tier_roi tier ∨
      ((adjust_gifts_for_tier_roi o tier g b).packFOC = 0 ∧
       (adjust_gifts_for_tier_roi o tier g b).hookah = 0)) := by
  refine ⟨⟨by norm_num [tier_roi], by norm_num [tier_roi],
    by norm_num [tier_roi], by norm_num [tier_roi]⟩, ?_, ?_, ?_⟩
  · intro h
    rw [adjust_gifts_for_tier_roi, if_pos h]
  · rw [adjust_gifts_for_tier_roi]
    split_ifs with h
    · exact ⟨le_refl _, le_refl _⟩
    · obtain ⟨ha, hb, _⟩ := adjust_loop_spec o (tier_roi tier) b
        (g.packFOC.toNat + g.hookah.toNat) g.packFOC g.hookah (le_refl _)
        hpf hhk
      exact ⟨ha, hb⟩
  · rw [adjust_gifts_for_tier_roi]
    split_ifs with h
    · exact Or.inl (le_of_not_lt (by rw [not_lt]; exact h))
    · obtain ⟨_, _, hc⟩ := adjust_loop_spec o (tier_roi tier) b
        (g.packFOC.toNat + g.hookah.toNat) g.packFOC g.hookah (le_refl _)
        hpf hhk
      exact hc

/-- Witness for C7 at a concrete order, tier and allocation. -/
theorem C7_witness :
    (adjust_gifts_for_tier_roi ⟨0, 0, 0, 100⟩ Tier.Silver ⟨1, 0⟩ 0).packFOC ≤
        (⟨1, 0⟩ : GiftQty).packFOC ∧
      (adjust_gifts_for_tier_roi ⟨0, 0, 0, 100⟩ Tier.Silver ⟨1, 0⟩ 0).hookah ≤
        (⟨1, 0⟩ : GiftQty).hookah :=
  (C7_adjust_gifts_for_tier_roi_spec ⟨0, 0, 0, 100⟩ Tier.Silver ⟨1, 0⟩ 0
    (by norm_num) (by norm_num) (by norm_num)).2.2.1

/-! ### Claim about budget-monotonicity of `recommend_gift` -/

/-- A 51 kg tobacco-shop order used to exhibit the failure of
budget-monotonicity around the 1-hookah threshold. -/
def c2_order : OrderData := ⟨0, 0, 51, 1000⟩

theorem c2_weight : total_order_weight_kg c2_order = 51 := by
  norm_num [total_order_weight_kg, total_order_weight_g, c2_order]

theorem c2_g399 :
    recommend_gift c2_order CustomerType.TOBACCO_SHOP 399 = ⟨10, 0⟩ := by
  have hh : hookah_alloc c2_order CustomerType.TOBACCO_SHOP 399 = 0 := by
    rw [hookah_alloc, if_pos rfl, c2_weight]
    norm_num
  rw [recommend_gift, hh]
  norm_num [get_max_gift_quantities, ratTrunc]

theorem c2_g400 :
    recommend_gift c2_order CustomerType.TOBACCO_SHOP 400 = ⟨0, 1⟩ := by
  have hh : hookah_alloc c2_order CustomerType.TOBACCO_SHOP 400 = 1 := by
    rw [hookah_alloc, if_pos rfl, c2_weight]
    norm_num
  rw [recommend_gift, hh]
  norm_num

/-- C2 counterexample: for the 51 kg tobacco-shop order, raising the
budget from 399 to 400 makes the Pack FOC quantity drop from 10 to 0
(the whole increased budget goes to the newly affordable hookah), so
the allocation is not monotone in the budget. -/
theorem C2_counterexample :
    (399 : ℚ) ≤ 400 ∧
    (recommend_gift c2_order CustomerType.TOBACCO_SHOP 400).packFOC <
      (recommend_gift c2_order CustomerType.TOBACCO_SHOP 399).packFOC := by
  refine ⟨by norm_num, ?_⟩
  rw [c2_g399, c2_g400]
  norm_num

/-- For budgets of at least 800 the hookah cap `min 2 max` is exactly 2. -/
theorem hookah_min_max_eq_two {o : OrderData} {b : ℚ} (hb : (800 : ℚ) ≤ b) :
    min 2 (get_max_gift_quantities b CustomerType.TOBACCO_SHOP
      o.total_value).hookah = 2 := by
  have hmax : (get_max_gift_quantities b CustomerType.TOBACCO_SHOP
      o.total_value).hookah = ⌊b / 400⌋ := by
    show (if CustomerType.TOBACCO_SHOP = CustomerType.TOBACCO_SHOP
      then ratTrunc (b / 400) else 0) = ⌊b / 400⌋
    rw [if_pos rfl]
    exact ratTrunc_of_nonneg (div_nonneg (by linarith) (by norm_num))
  rw [hmax]
  exact min_eq_left (le_floor_div (by norm_num) (by push_cast; linarith))

/-- Closed form of the hookah allocation for tobacco shops. -/
theorem hookah_alloc_eq (o : OrderData) (b : ℚ) :
    hookah_alloc o CustomerType.TOBACCO_SHOP b =
      if 100 < total_order_weight_kg o ∧ 800 ≤ b then 2
      else if 50 < total_order_weight_kg o ∧ 400 ≤ b then 1
      else 0 := by
  rw [hookah_alloc, if_pos rfl]
  split_ifs with h1 h2
  · exact hookah_min_max_eq_two h1.2
  · rfl
  · rfl

/-- Closed form of the Pack FOC quantity for retailers. -/
theorem recommend_gift_retailer_packFOC (o : OrderData) (b : ℚ) :
    (recommend_gift o CustomerType.RETAILER b).packFOC =
      if 0 < b then ⌊b / 38⌋ else 0 := by
  have hh : hookah_alloc o CustomerType.RETAILER b = 0 := by
    rw [hookah_alloc, if_neg (by simp)]
  show (if 0 < b - (hookah_alloc o CustomerType.RETAILER b : ℚ) * 400 then
      min ⌊(b - (hookah_alloc o CustomerType.RETAILER b : ℚ) * 400) / 38⌋
        (get_max_gift_quantities b CustomerType.RETAILER o.total_value).packFOC
    else 0) = if 0 < b then ⌊b / 38⌋ else 0
  rw [hh]
  simp only [Int.cast_zero, zero_mul, sub_zero]
  split_ifs with hb
  · show min ⌊b / 38⌋ (ratTrunc (b / 38)) = ⌊b / 38⌋
    rw [ratTrunc_of_nonneg (div_nonneg (le_of_lt hb) (by norm_num))]
    exact min_self _
  · rfl

/-- C2 amended: for a fixed order and category, the Hookah quantity is
monotone in the budget, and for retailers the Pack FOC quantity is
monotone too; for tobacco shops the Pack FOC quantity can drop when a
budget increase newly triggers a hookah allocation (see the
counterexample at budgets 399 and 400). -/
theorem C2_amended_budget_monotonicity (o : OrderData) (ct : CustomerType)
    (b1 b2 : ℚ) (h : b1 ≤ b2) :
    (recommend_gift o ct b1).hookah ≤ (recommend_gift o ct b2).hookah ∧
    (ct = CustomerType.RETAILER →
      (recommend_gift o ct b1).packFOC ≤ (recommend_gift o ct b2).packFOC) := by
  constructor
  · show hookah_alloc o ct b1 ≤ hookah_alloc o ct b2
    cases ct with
    | RETAILER =>
      have h0 : ∀ b : ℚ, hookah_alloc o CustomerType.RETAILER b = 0 :=
        fun b => by rw [hookah_alloc, if_neg (by simp)]
      rw [h0 b1, h0 b2]
    | TOBACCO_SHOP =>
      rw [hookah_alloc_eq, hookah_alloc_eq]
      by_cases hA1 : 100 < total_order_weight_kg o ∧ 800 ≤ b1
      · have hA2 : 100 < total_order_weight_kg o ∧ 800 ≤ b2 :=
          ⟨hA1.1, le_trans hA1.2 h⟩
        rw [if_pos hA1, if_pos hA2]
      · by_cases hB1 : 50 < total_order_weight_kg o ∧ 400 ≤ b1
        · rw [if_neg hA1, if_pos hB1]
          by_cases hA2 : 100 < total_order_weight_kg o ∧ 800 ≤ b2
          · rw [if_pos hA2]; norm_num
          · rw [if_neg hA2, if_pos ⟨hB1.1, le_trans hB1.2 h⟩]
        · rw [if_neg hA1, if_neg hB1]
          split_ifs <;> norm_num
  · intro hct
    subst hct
    rw [recommend_gift_retailer_packFOC, recommend_gift_retailer_packFOC]
    by_cases hb1 : 0 < b1
    · rw [if_pos hb1, if_pos (lt_of_lt_of_le hb1 h)]
      exact Int.floor_mono (by gcongr)
    · rw [if_neg hb1]
      split_ifs with hb2
      · exact floor_div_nonneg (le_of_lt hb2) (by norm_num)
      · exact le_refl 0

/-- Witness for the amended C2 at a retailer order with budgets 38 and 76. -/
theorem C2_witness :
    (recommend_gift c2_order CustomerType.RETAILER 38).packFOC ≤
      (recommend_gift c2_order CustomerType.RETAILER 76).packFOC :=
  (C2_amended_budget_monotonicity c2_order CustomerType.RETAILER 38 76
    (by norm_num)).2 rfl

/-! ### Claim about termination of `optimize_budget` -/

/-- The order exhibiting non-termination of the refinement loop: one
50 g pack at unit price 1, so the total value is 1. -/
def c1_order : OrderData := ⟨1, 0, 0, 1⟩

theorem c1_budget : calculate_budget_from_roi c1_order 3799.89 = 38 := by
  rw [calculate_budget_from_roi, round2, round_eq]
  norm_num [c1_order]

theorem c1_init : recommend_gift c1_order CustomerType.RETAILER 38 = ⟨1, 0⟩ := by
  have hh : hookah_alloc c1_order CustomerType.RETAILER 38 = 0 := by
    rw [hookah_alloc, if_neg (by simp)]
  rw [recommend_gift, hh]
  norm_num [get_max_gift_quantities, ratTrunc]

theorem c1_roi10 : calculate_roi c1_order ⟨1, 0⟩ 38 = 3800 := by
  rw [calculate_roi, if_pos (by norm_num [c1_order]),
    calculate_gift_value_packFOC, calculate_gift_value_hookah, round2, round_eq]
  norm_num [c1_order]

theorem c1_roi00 : calculate_roi c1_order ⟨0, 0⟩ 38 = 0 := by
  rw [calculate_roi, if_pos (by norm_num [c1_order]),
    calculate_gift_value_packFOC, calculate_gift_value_hookah, round2, round_eq]
  norm_num [c1_order]

theorem c1_maxpf :
    (get_max_gift_quantities 38 CustomerType.RETAILER
      c1_order.total_value).packFOC = 1 := by
  show ratTrunc ((38 : ℚ) / 38) = 1
  rw [ratTrunc_of_nonneg (by norm_num)]
  norm_num

/-- One loop iteration from Pack FOC = 1: realized ROI 3800 exceeds
the target 3799.89 by more than 0.1, so Pack FOC is decremented. -/
theorem c1_step_high (n : Nat) :
    optimize_loop c1_order CustomerType.RETAILER 3799.89 38 (n + 1) ⟨1, 0⟩ =
      optimize_loop c1_order CustomerType.RETAILER 3799.89 38 n ⟨0, 0⟩ := by
  simp only [optimize_loop, c1_roi10]
  rw [if_pos (by rw [abs_of_nonneg (by norm_num)]; norm_num),
    if_pos (by norm_num : (3799.89 : ℚ) < 3800),
    if_pos (by norm_num : (0 : ℤ) < (⟨1, 0⟩ : GiftQty).packFOC)]
  norm_num

/-- One loop iteration from Pack FOC = 0: realized ROI 0 is more than
0.1 below the target, and 0 is still below the maximum of 1, so Pack
FOC is incremented back. -/
theorem c1_step_low (n : Nat) :
    optimize_loop c1_order CustomerType.RETAILER 3799.89 38 (n + 1) ⟨0, 0⟩ =
      optimize_loop c1_order CustomerType.RETAILER 3799.89 38 n ⟨1, 0⟩ := by
  simp only [optimize_loop, c1_roi00]
  rw [if_pos (by rw [abs_of_nonpos (by norm_num)]; norm_num),
    if_neg (by norm_num : ¬ ((3799.89 : ℚ) < 0)), c1_maxpf,
    if_pos (by norm_num : (⟨0, 0⟩ : GiftQty).packFOC < 1)]
  norm_num

/-- C1: the refinement loop of `optimize_budget` does not always
terminate. For the order with total value 1 and target ROI 3799.89 the
derived budget is exactly 38, and the loop oscillates forever between
Pack FOC 1 (ROI 3800, more than 0.1 above target, decrement) and Pack
FOC 0 (ROI 0, below target and below the maximum of 1, increment): no
amount of fuel makes the loop reach an exit. -/
theorem C1_optimize_budget_diverges (fuel : Nat) :
    (optimize_budget c1_order CustomerType.RETAILER 3799.89 fuel).2 = false := by
  have key : ∀ n : Nat,
      (optimize_loop c1_order CustomerType.RETAILER 3799.89 38 n ⟨1, 0⟩).2 =
        false ∧
      (optimize_loop c1_order CustomerType.RETAILER 3799.89 38 n ⟨0, 0⟩).2 =
        false := by
    intro n
    induction n with
    | zero => exact ⟨rfl, rfl⟩
    | succ n ih =>
      exact ⟨by rw [c1_step_high]; exact ih.2,
        by rw [c1_step_low]; exact ih.1⟩
  simp only [optimize_budget]
  rw [c1_budget, c1_init]
  exact (key fuel).1
